import Mathlib

/-!
Shallow embedding of the request-execution core of the spotify-go client
(spotify.go together with the TooManyRequestsError file), and proofs about
its retry, decoding and error-handling behaviour.

Conventions of the embedding:
* Durations are Go time.Duration values: nanoseconds as integers.
* An HTTP response is modelled by the fields the executor reads: the status
  code, the Retry-After header as returned by Header.Get (empty string when
  the header is absent), the body bytes as a string, and the outcome of
  reading the body.
* encoding/json is an external library; each place that decodes JSON takes
  the decoding function as an explicit argument (an oracle), so theorems
  quantify over every possible decoder behaviour.
* Each physical attempt of the transport (c.http.Do) is an element of an
  oracle list: Sum.inl is a non-nil transport error, Sum.inr a response.
  The open-ended for-loop is modelled by recursion on that list; running
  out of oracle elements while the loop would continue yields the marker
  result noResponse.
-/

namespace SpotifyGo

/-- Go time.Duration: a count of nanoseconds (int64). -/
abbrev Duration := Int

/-- time.Second in nanoseconds. -/
def second : Duration := 1000000000

/-- defaultRetryDuration = time.Second * 5. -/
def defaultRetryDuration : Duration := 5 * second

/-- rateLimitExceededStatusCode = 429. -/
def rateLimitExceededStatusCode : Nat := 429

/-- The fields of Client that the execution core reads: the autoRetry flag
and the acceptLanguage header value (empty string when unset). -/
structure Client where
  autoRetry : Bool
  acceptLanguage : String
deriving DecidableEq, Repr

/-- The Error struct of the library: a message and the HTTP status code
carried inside the JSON error envelope. -/
structure SpotifyError where
  message : String
  status : Int
deriving DecidableEq, Repr

/-- Every error value the execution core can return, one constructor per
distinct Go error source. tooManyRequests is the TooManyRequestsError type
carrying its RetryAfter duration; domain is the Error struct; httpStatus
covers the fmt.Errorf messages synthesised by decodeError; transport is a
non-nil error from c.http.Do; requestBuild is a non-nil error from
http.NewRequestWithContext; jsonDecode is a failure of the success-payload
decode; bodyRead is a failure of ioutil.ReadAll; contextCanceled is
ctx.Err() after cancellation. -/
inductive ClientError where
  | domain (e : SpotifyError)
  | httpStatus (msg : String)
  | tooManyRequests (retryAfter : Duration)
  | transport (msg : String)
  | requestBuild (msg : String)
  | jsonDecode (msg : String)
  | bodyRead (msg : String)
  | contextCanceled
deriving DecidableEq, Repr

/-- The observable parts of an http.Response used by the executor. retryAfter
is the value of Header.Get on the Retry-After header, which returns the empty
string when the header is absent. bodyReadError models a non-nil error from
ioutil.ReadAll inside decodeError. -/
structure Response where
  statusCode : Nat
  retryAfter : String
  body : String
  bodyReadError : Option String
deriving DecidableEq, Repr

/-- net/http StatusText restricted to the codes exercised in this
development; Go returns the empty string for an unknown code. -/
def statusText (code : Nat) : String :=
  match code with
  | 200 => "OK"
  | 201 => "Created"
  | 202 => "Accepted"
  | 204 => "No Content"
  | 400 => "Bad Request"
  | 401 => "Unauthorized"
  | 403 => "Forbidden"
  | 404 => "Not Found"
  | 429 => "Too Many Requests"
  | 500 => "Internal Server Error"
  | 503 => "Service Unavailable"
  | _ => ""

/-- Accumulate decimal digits; none when a non-digit character appears. -/
def decDigits : List Char → Nat → Option Nat
  | [], acc => some acc
  | c :: cs, acc =>
    if c.isDigit then decDigits cs (10 * acc + (c.toNat - 48)) else none

/-- strconv.ParseInt(raw, 10, 32): an optional single sign followed by at
least one decimal digit, with the result required to fit in int32; none
models a non-nil parse error (empty string, stray characters, overflow). -/
def parseInt32 (s : String) : Option Int :=
  match s.data with
  | [] => none
  | c :: cs =>
    let signDigits : Bool × List Char :=
      if c = '-' then (true, cs)
      else if c = '+' then (false, cs)
      else (false, c :: cs)
    match signDigits.2 with
    | [] => none
    | ds =>
      match decDigits ds 0 with
      | none => none
      | some n =>
        if signDigits.1 then
          if n ≤ 2147483648 then some (-(n : Int)) else none
        else
          if n ≤ 2147483647 then some (n : Int) else none

/-- retryDuration: the Retry-After header parsed as seconds, with the 5
second default when the header is absent (Header.Get returned the empty
string) or fails to parse. -/
def retryDuration (resp : Response) : Duration :=
  let raw := resp.retryAfter
  if raw = "" then defaultRetryDuration
  else
    match parseInt32 raw with
    | none => defaultRetryDuration
    | some seconds => seconds * second

/-- shouldRetry: status is http.StatusAccepted (202) or
http.StatusTooManyRequests (429). -/
def shouldRetry (status : Nat) : Bool :=
  status == 202 || status == 429

/-- isFailure: the code is not among the caller-supplied valid codes. -/
def isFailure (code : Nat) : List Nat → Bool
  | [] => true
  | item :: rest => if item = code then false else isFailure code rest

/-- decodeError: read the body (surfacing a read error as-is); an empty body
yields a message built from the status code and reason phrase; a body that
decodes as the error envelope yields the embedded Error, with a fallback
message substituted when the embedded message is empty; a body that fails to
decode yields a message embedding the byte length and the raw body. The
envelope decode of encoding/json is the oracle jsonParse. -/
def decodeError (jsonParse : String → Option SpotifyError) (resp : Response) :
    ClientError :=
  match resp.bodyReadError with
  | some e => .bodyRead e
  | none =>
    if resp.body = "" then
      .httpStatus ("spotify: HTTP " ++ toString resp.statusCode ++ ": " ++
        statusText resp.statusCode ++ " (body empty)")
    else
      match jsonParse resp.body with
      | none =>
        .httpStatus ("spotify: couldn\x27t decode error: (" ++
          toString resp.body.utf8ByteSize ++ ") [" ++ resp.body ++ "]")
      | some e =>
        if e.message = "" then
          .domain ⟨"spotify: unexpected HTTP " ++ toString resp.statusCode ++
            ": " ++ statusText resp.statusCode ++ " (empty error)", e.status⟩
        else
          .domain e

/-- sleep: a select racing ctx.Done() against time.After(dur), returning
ctx.Err() afterwards. Modelled by its timed semantics: cancelIn is the time
in nanoseconds until the context is cancelled (none when it never is), the
timer fires at dur nanoseconds (immediately for a non-positive dur), and the
earlier event wins. The result is the elapsed time when the select completes
together with ctx.Err() at that moment. -/
def sleep (cancelIn : Option Nat) (dur : Duration) : Nat × Option ClientError :=
  let timerAt := dur.toNat
  match cancelIn with
  | none => (timerAt, none)
  | some t => if t ≤ timerAt then (t, some .contextCanceled) else (timerAt, none)

/-- What one loop iteration decides to do with a received response. -/
inductive StepOutcome (D : Type) where
  | retry (dur : Duration)
  | fail (e : ClientError)
  | done (dest : Option D)
deriving DecidableEq, Repr

/-- Classification of one response inside execute: retry-worthy codes either
sleep-and-retry (autoRetry) or fail with TooManyRequestsError; 204 succeeds
with no decode; a code outside 2xx and outside needsStatus fails with
decodeError; otherwise the body is decoded into the result when the caller
supplied one (resultNonNil), a decode failure being surfaced as the error.
decodeResult is the oracle for the success-payload JSON decode. -/
def executeClassify {D : Type} (c : Client) (needsStatus : List Nat)
    (jsonParse : String → Option SpotifyError)
    (decodeResult : String → Except String D) (resultNonNil : Bool)
    (resp : Response) : StepOutcome D :=
  if shouldRetry resp.statusCode then
    if c.autoRetry then .retry (retryDuration resp)
    else .fail (.tooManyRequests (retryDuration resp))
  else if resp.statusCode = 204 then
    .done none
  else if (300 ≤ resp.statusCode ∨ resp.statusCode < 200) ∧
      isFailure resp.statusCode needsStatus then
    .fail (decodeError jsonParse resp)
  else if resultNonNil then
    match decodeResult resp.body with
    | .error e => .fail (.jsonDecode e)
    | .ok d => .done (some d)
  else .done none

/-- Result of a whole execute call: ok (some d) is success with the
destination populated with d, ok none is success with the destination left
untouched, err is a returned error, and noResponse marks exhaustion of the
attempt oracle while the loop would continue. -/
inductive ExecResult (D : Type) where
  | ok (dest : Option D)
  | err (e : ClientError)
  | noResponse
deriving DecidableEq, Repr

/-- The execute loop over the oracle list of physical attempts: a transport
error returns immediately; otherwise the response is classified, a retry
sleeps (propagating a cancellation error from the sleep) and continues with
the remaining attempts and the cancellation clock advanced by the elapsed
sleep time. -/
def executeLoop {D : Type} (c : Client) (needsStatus : List Nat)
    (jsonParse : String → Option SpotifyError)
    (decodeResult : String → Except String D) (resultNonNil : Bool) :
    Option Nat → List (Sum String Response) → ExecResult D
  | _, [] => .noResponse
  | _, .inl e :: _ => .err (.transport e)
  | cancelIn, .inr resp :: rest =>
    match executeClassify c needsStatus jsonParse decodeResult resultNonNil resp with
    | .retry dur =>
      let s := sleep cancelIn dur
      match s.2 with
      | some e => .err e
      | none =>
        executeLoop c needsStatus jsonParse decodeResult resultNonNil
          (cancelIn.map fun t => t - s.1) rest
    | .fail e => .err e
    | .done dest => .ok dest

/-- Classification of one response inside get: only 429 is retry-worthy; 204
succeeds with no decode; any other code besides 200 fails with decodeError;
a 200 body is decoded into the caller-supplied result unconditionally. -/
def getClassify {D : Type} (c : Client)
    (jsonParse : String → Option SpotifyError)
    (decodeResult : String → Except String D)
    (resp : Response) : StepOutcome D :=
  if resp.statusCode = rateLimitExceededStatusCode then
    if c.autoRetry then .retry (retryDuration resp)
    else .fail (.tooManyRequests (retryDuration resp))
  else if resp.statusCode = 204 then .done none
  else if resp.statusCode ≠ 200 then .fail (decodeError jsonParse resp)
  else
    match decodeResult resp.body with
    | .error e => .fail (.jsonDecode e)
    | .ok d => .done (some d)

/-- Result of a whole get call. panicNilDeref is a Go runtime panic from
dereferencing a nil pointer. -/
inductive GetResult (D : Type) where
  | ok (dest : Option D)
  | err (e : ClientError)
  | panicNilDeref
  | noResponse
deriving DecidableEq, Repr

/-- The get loop. newRequest abstracts http.NewRequestWithContext for the
fixed url and context: Except.error e models a non-nil construction error,
in which case the returned request pointer is nil. The source sets the
Accept-Language header on the request BEFORE checking the construction
error, so a construction failure with a configured accept language
dereferences a nil request and panics; with no accept language configured
the construction error is returned. The request is rebuilt on every loop
iteration, with the same outcome each time. -/
def getLoop {D : Type} (c : Client)
    (jsonParse : String → Option SpotifyError)
    (decodeResult : String → Except String D)
    (newRequest : Except String Unit) :
    Option Nat → List (Sum String Response) → GetResult D
  | cancelIn, attempts =>
    match newRequest with
    | .error e =>
      if c.acceptLanguage ≠ "" then .panicNilDeref else .err (.requestBuild e)
    | .ok _ =>
      match attempts with
      | [] => .noResponse
      | .inl e :: _ => .err (.transport e)
      | .inr resp :: rest =>
        match getClassify c jsonParse decodeResult resp with
        | .retry dur =>
          let s := sleep cancelIn dur
          match s.2 with
          | some e => .err e
          | none =>
            getLoop c jsonParse decodeResult newRequest
              (cancelIn.map fun t => t - s.1) rest
        | .fail e => .err e
        | .done dest => .ok dest

/-- A stored *json.RawMessage: some raw is a non-nil pointer to the raw
bytes, none a nil pointer (the entry was JSON null). -/
abbrev RawMsgPtr := Option String

/-- Go map indexing on map[string]*json.RawMessage: the zero value (a nil
pointer) when the key is absent or the map itself is nil. -/
def mapIndex (m : List (String × RawMsgPtr)) (key : String) : RawMsgPtr :=
  match m with
  | [] => none
  | (k, v) :: rest => if k = key then v else mapIndex rest key

/-- Result of NewReleases. -/
inductive NewReleasesResult (A : Type) where
  | ok (page : A)
  | err (e : ClientError)
  | panicNilDeref
  | noResponse
deriving DecidableEq, Repr

/-- NewReleases: first get decodes the body into a map of raw messages (the
oracle objmapDecode), then the entry under the albums key is dereferenced
and re-decoded (the oracle unmarshalAlbums). Dereferencing *objmap["albums"]
panics when the entry is absent or null, both being a nil *json.RawMessage;
a 204 leaves objmap as the nil map, with the same nil dereference. -/
def newReleases {A : Type} (c : Client)
    (jsonParse : String → Option SpotifyError)
    (objmapDecode : String → Except String (List (String × RawMsgPtr)))
    (unmarshalAlbums : String → Except String A)
    (newRequest : Except String Unit)
    (cancelIn : Option Nat) (attempts : List (Sum String Response)) :
    NewReleasesResult A :=
  match getLoop c jsonParse objmapDecode newRequest cancelIn attempts with
  | .err e => .err e
  | .noResponse => .noResponse
  | .panicNilDeref => .panicNilDeref
  | .ok dest =>
    let objmap := dest.getD []
    match mapIndex objmap "albums" with
    | none => .panicNilDeref
    | some raw =>
      match unmarshalAlbums raw with
      | .error e => .err (.jsonDecode e)
      | .ok a => .ok a

/-! Concrete fixtures used by witnesses and counterexamples. -/

/-- Envelope-decode oracle that fails on every body. -/
def jpNone : String → Option SpotifyError := fun _ => none

/-- Envelope-decode oracle with three fixed behaviours: the body errenv
decodes to message not-found with status 404, the body emptymsg decodes to
an empty message with status 500, anything else fails to decode. -/
def jpFix : String → Option SpotifyError := fun s =>
  if s = "errenv" then some ⟨"not found", 404⟩
  else if s = "emptymsg" then some ⟨"", 500⟩
  else none

/-- Success-payload decode oracle returning 7 on every body. -/
def drNat : String → Except String Nat := fun _ => .ok 7

/-- First-stage decode oracle for NewReleases: the body emptyobj decodes to
an empty map, the body albumsnull to a map whose albums entry is null,
anything else fails. -/
def objmapDec : String → Except String (List (String × RawMsgPtr)) := fun s =>
  if s = "emptyobj" then .ok []
  else if s = "albumsnull" then .ok [("albums", none)]
  else .error "bad objmap"

/-- Second-stage album decode oracle. -/
def albumsDec : String → Except String Nat := fun _ => .ok 0

/-- Client with autoRetry off and no accept language. -/
def clientNoRetry : Client := ⟨false, ""⟩

/-- Client with autoRetry on and no accept language. -/
def clientRetry : Client := ⟨true, ""⟩

/-- Client with autoRetry off and an accept language configured. -/
def clientNoRetryLang : Client := ⟨false, "de"⟩

/-- A response with the given status, no Retry-After header, empty body. -/
def mkResp (code : Nat) : Response := ⟨code, "", "", none⟩

/-! Helper lemmas on the classifiers, the sleep and the loops. -/

/-- decodeError never yields the rate-limit error. -/
theorem decodeError_ne_tooMany (jp : String → Option SpotifyError) (r : Response)
    (d : Duration) : decodeError jp r ≠ ClientError.tooManyRequests d := by
  unfold decodeError
  split
  · simp
  · split
    · simp
    · split
      · simp
      · split <;> simp

/-- A sleep can only fail with the cancellation error. -/
theorem sleep_snd_eq_some (cancelIn : Option Nat) (dur : Duration) (e : ClientError)
    (h : (sleep cancelIn dur).2 = some e) : e = ClientError.contextCanceled := by
  unfold sleep at h
  cases cancelIn with
  | none => simp at h
  | some t =>
    by_cases ht : t ≤ dur.toNat
    · simp [ht] at h
      exact h.symm
    · simp [ht] at h

/-- If execute classifies a response as a retry, autoRetry is set, the status
is retry-worthy and the delay is retryDuration. -/
theorem executeClassify_eq_retry {D : Type} {c : Client} {ns : List Nat}
    {jp : String → Option SpotifyError} {dr : String → Except String D} {rn : Bool}
    {r : Response} {d : Duration}
    (h : executeClassify c ns jp dr rn r = StepOutcome.retry d) :
    c.autoRetry = true ∧ shouldRetry r.statusCode = true ∧ d = retryDuration r := by
  unfold executeClassify at h
  split at h
  · next hs =>
    split at h
    · next ha =>
      injection h with h1
      exact ⟨ha, hs, h1.symm⟩
    · simp at h
  · next hs =>
    split at h
    · simp at h
    · split at h
      · simp at h
      · split at h
        · split at h <;> simp at h
        · simp at h

/-- If execute classifies a response as a rate-limit failure, autoRetry is
unset, the status is retry-worthy and the delay is retryDuration. -/
theorem executeClassify_eq_fail_tooMany {D : Type} {c : Client} {ns : List Nat}
    {jp : String → Option SpotifyError} {dr : String → Except String D} {rn : Bool}
    {r : Response} {d : Duration}
    (h : executeClassify c ns jp dr rn r
      = StepOutcome.fail (ClientError.tooManyRequests d)) :
    c.autoRetry = false ∧ shouldRetry r.statusCode = true ∧ d = retryDuration r := by
  unfold executeClassify at h
  split at h
  · next hs =>
    split at h
    · simp at h
    · next ha =>
      injection h with h1
      injection h1 with h2
      exact ⟨Bool.not_eq_true _ ▸ ha, hs, h2.symm⟩
  · next hs =>
    split at h
    · simp at h
    · split at h
      · injection h with h1
        exact absurd h1 (decodeError_ne_tooMany jp r d)
      · split at h
        · split at h <;> simp at h
        · simp at h

/-- Retry-worthy status with autoRetry set classifies as a retry. -/
theorem executeClassify_retry_of {D : Type} (c : Client) (ns : List Nat)
    (jp : String → Option SpotifyError) (dr : String → Except String D) (rn : Bool)
    (r : Response) (hs : shouldRetry r.statusCode = true) (ha : c.autoRetry = true) :
    executeClassify c ns jp dr rn r = StepOutcome.retry (retryDuration r) := by
  simp [executeClassify, hs, ha]

/-- Retry-worthy status with autoRetry unset classifies as the rate-limit
failure. -/
theorem executeClassify_tooMany_of {D : Type} (c : Client) (ns : List Nat)
    (jp : String → Option SpotifyError) (dr : String → Except String D) (rn : Bool)
    (r : Response) (hs : shouldRetry r.statusCode = true) (ha : c.autoRetry = false) :
    executeClassify c ns jp dr rn r
      = StepOutcome.fail (ClientError.tooManyRequests (retryDuration r)) := by
  simp [executeClassify, hs, ha]

/-- If get classifies a response as a retry, autoRetry is set, the status is
429 and the delay is retryDuration. -/
theorem getClassify_eq_retry {D : Type} {c : Client}
    {jp : String → Option SpotifyError} {dr : String → Except String D}
    {r : Response} {d : Duration}
    (h : getClassify c jp dr r = StepOutcome.retry d) :
    c.autoRetry = true ∧ r.statusCode = 429 ∧ d = retryDuration r := by
  unfold getClassify at h
  split at h
  · next hs =>
    split at h
    · next ha =>
      injection h with h1
      exact ⟨ha, hs, h1.symm⟩
    · simp at h
  · next hs =>
    split at h
    · simp at h
    · split at h
      · simp at h
      · split at h <;> simp at h

/-- If get classifies a response as a rate-limit failure, autoRetry is unset,
the status is 429 and the delay is retryDuration. -/
theorem getClassify_eq_fail_tooMany {D : Type} {c : Client}
    {jp : String → Option SpotifyError} {dr : String → Except String D}
    {r : Response} {d : Duration}
    (h : getClassify c jp dr r = StepOutcome.fail (ClientError.tooManyRequests d)) :
    c.autoRetry = false ∧ r.statusCode = 429 ∧ d = retryDuration r := by
  unfold getClassify at h
  split at h
  · next hs =>
    split at h
    · simp at h
    · next ha =>
      injection h with h1
      injection h1 with h2
      exact ⟨Bool.not_eq_true _ ▸ ha, hs, h2.symm⟩
  · next hs =>
    split at h
    · simp at h
    · split at h
      · injection h with h1
        exact absurd h1 (decodeError_ne_tooMany jp r d)
      · split at h <;> simp at h

/-- A 429 with autoRetry set classifies as a retry in get. -/
theorem getClassify_retry_of {D : Type} (c : Client)
    (jp : String → Option SpotifyError) (dr : String → Except String D)
    (r : Response) (hs : r.statusCode = 429) (ha : c.autoRetry = true) :
    getClassify c jp dr r = StepOutcome.retry (retryDuration r) := by
  simp [getClassify, rateLimitExceededStatusCode, hs, ha]

/-- A 429 with autoRetry unset classifies as the rate-limit failure in get. -/
theorem getClassify_tooMany_of {D : Type} (c : Client)
    (jp : String → Option SpotifyError) (dr : String → Except String D)
    (r : Response) (hs : r.statusCode = 429) (ha : c.autoRetry = false) :
    getClassify c jp dr r
      = StepOutcome.fail (ClientError.tooManyRequests (retryDuration r)) := by
  simp [getClassify, rateLimitExceededStatusCode, hs, ha]

/-- With autoRetry unset the execute loop ignores everything after the first
attempt outcome. -/
theorem executeLoop_stop_of_noRetry {D : Type} (c : Client) (ns : List Nat)
    (jp : String → Option SpotifyError) (dr : String → Except String D) (rn : Bool)
    (cancelIn : Option Nat) (a : Sum String Response)
    (rest : List (Sum String Response)) (ha : c.autoRetry = false) :
    executeLoop c ns jp dr rn cancelIn (a :: rest)
      = executeLoop c ns jp dr rn cancelIn [a] := by
  cases a with
  | inl e => simp [executeLoop]
  | inr r =>
    cases hc : executeClassify c ns jp dr rn r with
    | retry d =>
      have := (executeClassify_eq_retry hc).1
      rw [ha] at this
      exact absurd this (by simp)
    | fail e => simp [executeLoop, hc]
    | done dest => simp [executeLoop, hc]

/-- With autoRetry unset the get loop ignores everything after the first
attempt outcome. -/
theorem getLoop_stop_of_noRetry {D : Type} (c : Client)
    (jp : String → Option SpotifyError) (dr : String → Except String D)
    (cancelIn : Option Nat) (a : Sum String Response)
    (rest : List (Sum String Response)) (ha : c.autoRetry = false) :
    getLoop c jp dr (Except.ok ()) cancelIn (a :: rest)
      = getLoop c jp dr (Except.ok ()) cancelIn [a] := by
  cases a with
  | inl e => simp [getLoop]
  | inr r =>
    cases hc : getClassify c jp dr r with
    | retry d =>
      have := (getClassify_eq_retry hc).1
      rw [ha] at this
      exact absurd this (by simp)
    | fail e => simp [getLoop, hc]
    | done dest => simp [getLoop, hc]

/-- A retry-worthy response with autoRetry set and a sleep that is not
interrupted makes the execute loop continue with the remaining attempts. -/
theorem executeLoop_retry_step {D : Type} (c : Client) (ns : List Nat)
    (jp : String → Option SpotifyError) (dr : String → Except String D) (rn : Bool)
    (cancelIn : Option Nat) (r : Response) (rest : List (Sum String Response))
    (hs : shouldRetry r.statusCode = true) (ha : c.autoRetry = true)
    (hsleep : (sleep cancelIn (retryDuration r)).2 = none) :
    executeLoop c ns jp dr rn cancelIn (Sum.inr r :: rest)
      = executeLoop c ns jp dr rn
          (cancelIn.map fun t => t - (sleep cancelIn (retryDuration r)).1) rest := by
  simp [executeLoop, executeClassify_retry_of c ns jp dr rn r hs ha, hsleep]

/-- A 429 with autoRetry set and a sleep that is not interrupted makes the
get loop continue with the remaining attempts. -/
theorem getLoop_retry_step {D : Type} (c : Client)
    (jp : String → Option SpotifyError) (dr : String → Except String D)
    (cancelIn : Option Nat) (r : Response) (rest : List (Sum String Response))
    (hs : r.statusCode = 429) (ha : c.autoRetry = true)
    (hsleep : (sleep cancelIn (retryDuration r)).2 = none) :
    getLoop c jp dr (Except.ok ()) cancelIn (Sum.inr r :: rest)
      = getLoop c jp dr (Except.ok ())
          (cancelIn.map fun t => t - (sleep cancelIn (retryDuration r)).1) rest := by
  simp [getLoop, getClassify_retry_of c jp dr r hs ha, hsleep]

/-- With autoRetry set the execute loop never returns the rate-limit error,
whatever the attempts. -/
theorem executeLoop_no_tooMany_of_autoRetry {D : Type} (c : Client) (ns : List Nat)
    (jp : String → Option SpotifyError) (dr : String → Except String D) (rn : Bool)
    (ha : c.autoRetry = true) :
    ∀ (attempts : List (Sum String Response)) (cancelIn : Option Nat) (d : Duration),
      executeLoop c ns jp dr rn cancelIn attempts
        ≠ ExecResult.err (ClientError.tooManyRequests d) := by
  intro attempts
  induction attempts with
  | nil => intro cancelIn d h; simp [executeLoop] at h
  | cons a rest ih =>
    intro cancelIn d h
    cases a with
    | inl e => simp [executeLoop] at h
    | inr r =>
      cases hc : executeClassify c ns jp dr rn r with
      | retry dur =>
        rw [show executeLoop c ns jp dr rn cancelIn (Sum.inr r :: rest)
            = (match (sleep cancelIn dur).2 with
               | some e => ExecResult.err e
               | none => executeLoop c ns jp dr rn
                   (cancelIn.map fun t => t - (sleep cancelIn dur).1) rest)
          from by simp [executeLoop, hc]] at h
        cases hsl : (sleep cancelIn dur).2 with
        | some e =>
          rw [hsl] at h
          injection h with h1
          rw [sleep_snd_eq_some cancelIn dur e hsl] at h1
          exact absurd h1 (by simp)
        | none =>
          rw [hsl] at h
          exact ih _ _ h
      | fail e =>
        rw [show executeLoop c ns jp dr rn cancelIn (Sum.inr r :: rest)
            = ExecResult.err e from by simp [executeLoop, hc]] at h
        injection h with h1
        rw [h1] at hc
        have := (executeClassify_eq_fail_tooMany hc).1
        rw [ha] at this
        exact absurd this (by simp)
      | done dest =>
        rw [show executeLoop c ns jp dr rn cancelIn (Sum.inr r :: rest)
            = ExecResult.ok dest from by simp [executeLoop, hc]] at h
        exact absurd h (by simp)

/-- With autoRetry set the get loop never returns the rate-limit error,
whatever the attempts. -/
theorem getLoop_no_tooMany_of_autoRetry {D : Type} (c : Client)
    (jp : String → Option SpotifyError) (dr : String → Except String D)
    (ha : c.autoRetry = true) :
    ∀ (attempts : List (Sum String Response)) (cancelIn : Option Nat) (d : Duration),
      getLoop c jp dr (Except.ok ()) cancelIn attempts
        ≠ GetResult.err (ClientError.tooManyRequests d) := by
  intro attempts
  induction attempts with
  | nil => intro cancelIn d h; simp [getLoop] at h
  | cons a rest ih =>
    intro cancelIn d h
    cases a with
    | inl e => simp [getLoop] at h
    | inr r =>
      cases hc : getClassify c jp dr r with
      | retry dur =>
        rw [show getLoop c jp dr (Except.ok ()) cancelIn (Sum.inr r :: rest)
            = (match (sleep cancelIn dur).2 with
               | some e => GetResult.err e
               | none => getLoop c jp dr (Except.ok ())
                   (cancelIn.map fun t => t - (sleep cancelIn dur).1) rest)
          from by simp [getLoop, hc]] at h
        cases hsl : (sleep cancelIn dur).2 with
        | some e =>
          rw [hsl] at h
          injection h with h1
          rw [sleep_snd_eq_some cancelIn dur e hsl] at h1
          exact absurd h1 (by simp)
        | none =>
          rw [hsl] at h
          exact ih _ _ h
      | fail e =>
        rw [show getLoop c jp dr (Except.ok ()) cancelIn (Sum.inr r :: rest)
            = GetResult.err e from by simp [getLoop, hc]] at h
        injection h with h1
        rw [h1] at hc
        have := (getClassify_eq_fail_tooMany hc).1
        rw [ha] at this
        exact absurd this (by simp)
      | done dest =>
        rw [show getLoop c jp dr (Except.ok ()) cancelIn (Sum.inr r :: rest)
            = GetResult.ok dest from by simp [getLoop, hc]] at h
        exact absurd h (by simp)

/-- With autoRetry unset, the execute loop returns the rate-limit error on a
first received response exactly for the retry-worthy statuses, with the
retryDuration delay. -/
theorem executeLoop_cons_tooMany_iff {D : Type} (c : Client) (ns : List Nat)
    (jp : String → Option SpotifyError) (dr : String → Except String D) (rn : Bool)
    (cancelIn : Option Nat) (r : Response) (rest : List (Sum String Response))
    (d : Duration) (ha : c.autoRetry = false) :
    executeLoop c ns jp dr rn cancelIn (Sum.inr r :: rest)
        = ExecResult.err (ClientError.tooManyRequests d) ↔
      shouldRetry r.statusCode = true ∧ d = retryDuration r := by
  constructor
  · intro h
    cases hc : executeClassify c ns jp dr rn r with
    | retry dur =>
      have := (executeClassify_eq_retry hc).1
      rw [ha] at this
      exact absurd this (by simp)
    | fail e =>
      rw [show executeLoop c ns jp dr rn cancelIn (Sum.inr r :: rest)
          = ExecResult.err e from by simp [executeLoop, hc]] at h
      injection h with h1
      rw [h1] at hc
      have := executeClassify_eq_fail_tooMany hc
      exact ⟨this.2.1, this.2.2⟩
    | done dest =>
      rw [show executeLoop c ns jp dr rn cancelIn (Sum.inr r :: rest)
          = ExecResult.ok dest from by simp [executeLoop, hc]] at h
      exact absurd h (by simp)
  · intro h
    rw [h.2]
    simp [executeLoop, executeClassify_tooMany_of c ns jp dr rn r h.1 ha]

/-- With autoRetry unset, the get loop returns the rate-limit error on a
first received response exactly for status 429, with the retryDuration
delay. -/
theorem getLoop_cons_tooMany_iff {D : Type} (c : Client)
    (jp : String → Option SpotifyError) (dr : String → Except String D)
    (cancelIn : Option Nat) (r : Response) (rest : List (Sum String Response))
    (d : Duration) (ha : c.autoRetry = false) :
    getLoop c jp dr (Except.ok ()) cancelIn (Sum.inr r :: rest)
        = GetResult.err (ClientError.tooManyRequests d) ↔
      r.statusCode = 429 ∧ d = retryDuration r := by
  constructor
  · intro h
    cases hc : getClassify c jp dr r with
    | retry dur =>
      have := (getClassify_eq_retry hc).1
      rw [ha] at this
      exact absurd this (by simp)
    | fail e =>
      rw [show getLoop c jp dr (Except.ok ()) cancelIn (Sum.inr r :: rest)
          = GetResult.err e from by simp [getLoop, hc]] at h
      injection h with h1
      rw [h1] at hc
      have := getClassify_eq_fail_tooMany hc
      exact ⟨this.2.1, this.2.2⟩
    | done dest =>
      rw [show getLoop c jp dr (Except.ok ()) cancelIn (Sum.inr r :: rest)
          = GetResult.ok dest from by simp [getLoop, hc]] at h
      exact absurd h (by simp)
  · intro h
    rw [h.2]
    simp [getLoop, getClassify_tooMany_of c jp dr r h.1 ha]

/-! Claim theorems. -/

/-- C1 fails on the code: a 202 response lies in [200,299], is not 204,
carries a decodable body and a destination is supplied, yet execute with
auto-retry off returns a rate-limit error; likewise a 201 response makes get
run the error decoder instead of populating the destination. -/
theorem success_decode_counterexample :
    executeLoop clientNoRetry [] jpNone drNat true none [Sum.inr (mkResp 202)]
      = ExecResult.err (ClientError.tooManyRequests defaultRetryDuration) ∧
    getLoop clientNoRetry jpNone drNat (Except.ok ()) none [Sum.inr (mkResp 201)]
      = GetResult.err
          (ClientError.httpStatus "spotify: HTTP 201: Created (body empty)") :=
  ⟨rfl, rfl⟩

/-- C1 amended: for a response with status in [200,299] other than 202 and
204 whose body the destination decoder accepts, execute with a supplied
destination populates it and returns no error; get does so exactly for
status 200, and hands any other such status to the error decoder. -/
theorem success_decode_populates {D : Type} (c : Client) (ns : List Nat)
    (jp : String → Option SpotifyError) (dr : String → Except String D)
    (cancelIn : Option Nat) (r : Response) (d : D)
    (hlo : 200 ≤ r.statusCode) (hhi : r.statusCode < 300)
    (h202 : r.statusCode ≠ 202) (h204 : r.statusCode ≠ 204)
    (hdec : dr r.body = Except.ok d) :
    executeLoop c ns jp dr true cancelIn [Sum.inr r] = ExecResult.ok (some d) ∧
    (r.statusCode = 200 →
      getLoop c jp dr (Except.ok ()) cancelIn [Sum.inr r] = GetResult.ok (some d)) ∧
    (r.statusCode ≠ 200 →
      getLoop c jp dr (Except.ok ()) cancelIn [Sum.inr r]
        = GetResult.err (decodeError jp r)) := by
  have hs : shouldRetry r.statusCode = false := by
    simp only [shouldRetry, Bool.or_eq_false_iff, beq_eq_false_iff_ne, ne_eq]
    omega
  have hnotfail : ¬ (300 ≤ r.statusCode ∨ r.statusCode < 200) := by omega
  refine ⟨?_, ?_, ?_⟩
  · have hc : executeClassify c ns jp dr true r = StepOutcome.done (some d) := by
      simp [executeClassify, hs, h204, hnotfail, hdec]
    simp [executeLoop, hc]
  · intro h200
    have hc : getClassify c jp dr r = StepOutcome.done (some d) := by
      simp [getClassify, rateLimitExceededStatusCode, h200, hdec]
    simp [getLoop, hc]
  · intro h200
    have h429 : r.statusCode ≠ 429 := by omega
    have hc : getClassify c jp dr r = StepOutcome.fail (decodeError jp r) := by
      simp [getClassify, rateLimitExceededStatusCode, h429, h204, h200]
    simp [getLoop, hc]

/-- C2: shouldRetry classifies exactly the statuses 202 and 429 as
retry-worthy while the get path treats only 429 as retry-worthy; in both
paths a retry-worthy response leads to a retry only while autoRetry is set,
and with autoRetry unset the loop terminates on the first attempt outcome. -/
theorem retry_classification {D : Type} (c : Client) (ns : List Nat)
    (jp : String → Option SpotifyError) (dr : String → Except String D) (rn : Bool)
    (cancelIn : Option Nat) (a : Sum String Response) (r : Response)
    (rest : List (Sum String Response)) :
    (∀ s : Nat, shouldRetry s = true ↔ s = 202 ∨ s = 429) ∧
    (∀ (r2 : Response) (d : Duration),
      getClassify c jp dr r2 = StepOutcome.retry d → r2.statusCode = 429) ∧
    (c.autoRetry = false →
      executeLoop c ns jp dr rn cancelIn (a :: rest)
          = executeLoop c ns jp dr rn cancelIn [a] ∧
      getLoop c jp dr (Except.ok ()) cancelIn (a :: rest)
          = getLoop c jp dr (Except.ok ()) cancelIn [a]) ∧
    (shouldRetry r.statusCode = true → c.autoRetry = true →
      (sleep cancelIn (retryDuration r)).2 = none →
      executeLoop c ns jp dr rn cancelIn (Sum.inr r :: rest)
        = executeLoop c ns jp dr rn
            (cancelIn.map fun t => t - (sleep cancelIn (retryDuration r)).1) rest) ∧
    (r.statusCode = 429 → c.autoRetry = true →
      (sleep cancelIn (retryDuration r)).2 = none →
      getLoop c jp dr (Except.ok ()) cancelIn (Sum.inr r :: rest)
        = getLoop c jp dr (Except.ok ())
            (cancelIn.map fun t => t - (sleep cancelIn (retryDuration r)).1) rest) := by
  refine ⟨?_, ?_, ?_, ?_, ?_⟩
  · intro s
    simp [shouldRetry]
  · intro r2 d h
    exact (getClassify_eq_retry h).2.1
  · intro ha
    exact ⟨executeLoop_stop_of_noRetry c ns jp dr rn cancelIn a rest ha,
      getLoop_stop_of_noRetry c jp dr cancelIn a rest ha⟩
  · intro hs ha hsl
    exact executeLoop_retry_step c ns jp dr rn cancelIn r rest hs ha hsl
  · intro hs ha hsl
    exact getLoop_retry_step c jp dr cancelIn r rest hs ha hsl

/-- C3 fails on the code: the header value 0 is present and parses as a
non-negative integer, and retryDuration returns a zero delay, which is not
strictly positive. -/
theorem retryDuration_zero_counterexample :
    parseInt32 "0" = some 0 ∧ retryDuration ⟨429, "0", "", none⟩ = 0 ∧
      ¬ 0 < retryDuration ⟨429, "0", "", none⟩ := by
  decide

/-- C3 amended: retryDuration returns the parsed header value in seconds
whenever the header parses as an int32 (zero and negative values included),
and the fixed 5 second default when the header is absent or unparseable; the
result is strictly positive whenever the parsed value is positive, and the
default itself is strictly positive. -/
theorem retryDuration_spec (r : Response) :
    (r.retryAfter = "" → retryDuration r = defaultRetryDuration) ∧
    (parseInt32 r.retryAfter = none → retryDuration r = defaultRetryDuration) ∧
    (∀ n : Int, parseInt32 r.retryAfter = some n → retryDuration r = n * second) ∧
    (∀ n : Int, parseInt32 r.retryAfter = some n → 0 < n → 0 < retryDuration r) ∧
    (0 : Int) < defaultRetryDuration := by
  refine ⟨?_, ?_, ?_, ?_, by norm_num [defaultRetryDuration, second]⟩
  · intro h
    simp [retryDuration, h]
  · intro h
    by_cases hraw : r.retryAfter = ""
    · simp [retryDuration, hraw]
    · simp [retryDuration, hraw, h]
  · intro n hn
    have hraw : r.retryAfter ≠ "" := by
      intro hh
      rw [hh, show parseInt32 "" = none from rfl] at hn
      exact Option.noConfusion hn
    simp [retryDuration, hraw, hn]
  · intro n hn hpos
    have hraw : r.retryAfter ≠ "" := by
      intro hh
      rw [hh, show parseInt32 "" = none from rfl] at hn
      exact Option.noConfusion hn
    rw [show retryDuration r = n * second from by simp [retryDuration, hraw, hn]]
    exact mul_pos hpos (by norm_num [second])

/-- C4 fails on the code: a 202 response, which is not the rate-limit status
429, makes execute with auto-retry off return the rate-limit error. -/
theorem tooManyRequests_on_202_counterexample :
    executeLoop clientNoRetry [] jpNone drNat true none [Sum.inr ⟨202, "7", "", none⟩]
      = ExecResult.err (ClientError.tooManyRequests (7 * second)) ∧
    (202 : Nat) ≠ 429 :=
  ⟨rfl, by decide⟩

/-- C4 amended: the rate-limit error is returned exactly when autoRetry is
unset and the first received status is retry-classified, which is 202 or 429
for execute and only 429 for get; while autoRetry is set neither path ever
returns it. -/
theorem tooManyRequests_exact_conditions {D : Type} (c : Client) (ns : List Nat)
    (jp : String → Option SpotifyError) (dr : String → Except String D) (rn : Bool)
    (cancelIn : Option Nat) (attempts : List (Sum String Response))
    (r : Response) (rest : List (Sum String Response)) (d : Duration) :
    (c.autoRetry = true →
      executeLoop c ns jp dr rn cancelIn attempts
          ≠ ExecResult.err (ClientError.tooManyRequests d) ∧
      getLoop c jp dr (Except.ok ()) cancelIn attempts
          ≠ GetResult.err (ClientError.tooManyRequests d)) ∧
    (c.autoRetry = false →
      (executeLoop c ns jp dr rn cancelIn (Sum.inr r :: rest)
          = ExecResult.err (ClientError.tooManyRequests d) ↔
        shouldRetry r.statusCode = true ∧ d = retryDuration r) ∧
      (getLoop c jp dr (Except.ok ()) cancelIn (Sum.inr r :: rest)
          = GetResult.err (ClientError.tooManyRequests d) ↔
        r.statusCode = 429 ∧ d = retryDuration r)) := by
  constructor
  · intro ha
    exact ⟨executeLoop_no_tooMany_of_autoRetry c ns jp dr rn ha attempts cancelIn d,
      getLoop_no_tooMany_of_autoRetry c jp dr ha attempts cancelIn d⟩
  · intro ha
    exact ⟨executeLoop_cons_tooMany_iff c ns jp dr rn cancelIn r rest d ha,
      getLoop_cons_tooMany_iff c jp dr cancelIn r rest d ha⟩

/-- C5: a first 429 response with autoRetry unset makes both paths fail at
once, for any remaining attempts and without sleeping, with the distinct
rate-limit error constructor carrying retryDuration: the parsed Retry-After
value in seconds, or the 5 second default when absent or unparseable; that
error is distinguishable from every domain error by constructor. -/
theorem rate_limit_disabled_fails_fast {D : Type} (c : Client) (ns : List Nat)
    (jp : String → Option SpotifyError) (dr : String → Except String D) (rn : Bool)
    (cancelIn : Option Nat) (r : Response) (rest : List (Sum String Response))
    (ha : c.autoRetry = false) (h429 : r.statusCode = 429) :
    executeLoop c ns jp dr rn cancelIn (Sum.inr r :: rest)
      = ExecResult.err (ClientError.tooManyRequests (retryDuration r)) ∧
    getLoop c jp dr (Except.ok ()) cancelIn (Sum.inr r :: rest)
      = GetResult.err (ClientError.tooManyRequests (retryDuration r)) ∧
    (∀ n : Int, parseInt32 r.retryAfter = some n → retryDuration r = n * second) ∧
    (r.retryAfter = "" ∨ parseInt32 r.retryAfter = none →
      retryDuration r = defaultRetryDuration) ∧
    (∀ e : SpotifyError,
      ClientError.tooManyRequests (retryDuration r) ≠ ClientError.domain e) := by
  have hs : shouldRetry r.statusCode = true := by simp [shouldRetry, h429]
  refine ⟨?_, ?_, ?_, ?_, ?_⟩
  · simp [executeLoop, executeClassify_tooMany_of c ns jp dr rn r hs ha]
  · simp [getLoop, getClassify_tooMany_of c jp dr r h429 ha]
  · intro n hn
    have hraw : r.retryAfter ≠ "" := by
      intro hh
      rw [hh, show parseInt32 "" = none from rfl] at hn
      exact Option.noConfusion hn
    simp [retryDuration, hraw, hn]
  · intro h
    rcases h with h | h
    · simp [retryDuration, h]
    · by_cases hraw : r.retryAfter = ""
      · simp [retryDuration, hraw]
      · simp [retryDuration, hraw, h]
  · intro e
    simp

/-- C6: with the body read succeeding, decodeError returns the synthesized
status-and-reason message on an empty body, the embedded Error exactly when
the envelope decodes with a non-empty message, the fallback message built
from the status code and reason phrase when the embedded message is empty,
and the diagnostic message embedding the byte length and raw body when the
envelope fails to decode. -/
theorem decodeError_cases (jp : String → Option SpotifyError) (r : Response)
    (hread : r.bodyReadError = none) :
    (r.body = "" → decodeError jp r
      = ClientError.httpStatus ("spotify: HTTP " ++ toString r.statusCode ++ ": "
          ++ statusText r.statusCode ++ " (body empty)")) ∧
    (∀ e : SpotifyError, r.body ≠ "" → jp r.body = some e → e.message ≠ "" →
      decodeError jp r = ClientError.domain e) ∧
    (∀ e : SpotifyError, r.body ≠ "" → jp r.body = some e → e.message = "" →
      decodeError jp r = ClientError.domain
        ⟨"spotify: unexpected HTTP " ++ toString r.statusCode ++ ": "
          ++ statusText r.statusCode ++ " (empty error)", e.status⟩) ∧
    (r.body ≠ "" → jp r.body = none →
      decodeError jp r = ClientError.httpStatus
        ("spotify: couldn\x27t decode error: (" ++ toString r.body.utf8ByteSize
          ++ ") [" ++ r.body ++ "]")) := by
  refine ⟨?_, ?_, ?_, ?_⟩
  · intro hb
    simp [decodeError, hread, hb]
  · intro e hb hj hm
    simp [decodeError, hread, hb, hj, hm]
  · intro e hb hj hm
    simp [decodeError, hread, hb, hj, hm]
  · intro hb hj
    simp [decodeError, hread, hb, hj]

/-- C7: a 204 response makes both paths return success at once with no
decode attempted and the destination left untouched, for any body content,
any configuration and any remaining attempts. -/
theorem no_content_no_decode {D : Type} (c : Client) (ns : List Nat)
    (jp : String → Option SpotifyError) (dr : String → Except String D) (rn : Bool)
    (cancelIn : Option Nat) (r : Response) (rest : List (Sum String Response))
    (h204 : r.statusCode = 204) :
    executeLoop c ns jp dr rn cancelIn (Sum.inr r :: rest) = ExecResult.ok none ∧
    getLoop c jp dr (Except.ok ()) cancelIn (Sum.inr r :: rest)
      = GetResult.ok (none : Option D) := by
  have hc : executeClassify c ns jp dr rn r = StepOutcome.done none := by
    simp [executeClassify, shouldRetry, h204]
  have hg : getClassify c jp dr r = StepOutcome.done (none : Option D) := by
    simp [getClassify, rateLimitExceededStatusCode, h204]
  exact ⟨by simp [executeLoop, hc], by simp [getLoop, hg]⟩

/-- C8: when the context is cancelled t nanoseconds into the retry sleep of
a retry-worthy response, with t strictly below the full delay, the sleep
completes at t with the cancellation error, strictly before the full delay,
and the execute loop fails with the cancellation error instead of going on
to the remaining attempts. -/
theorem cancellation_during_retry_sleep {D : Type} (c : Client) (ns : List Nat)
    (jp : String → Option SpotifyError) (dr : String → Except String D) (rn : Bool)
    (r : Response) (rest : List (Sum String Response)) (t : Nat)
    (hs : shouldRetry r.statusCode = true) (ha : c.autoRetry = true)
    (ht : t < (retryDuration r).toNat) :
    sleep (some t) (retryDuration r) = (t, some ClientError.contextCanceled) ∧
    (sleep (some t) (retryDuration r)).1 < (retryDuration r).toNat ∧
    executeLoop c ns jp dr rn (some t) (Sum.inr r :: rest)
      = ExecResult.err ClientError.contextCanceled := by
  have h1 : sleep (some t) (retryDuration r) = (t, some ClientError.contextCanceled) := by
    simp [sleep, Nat.le_of_lt ht]
  refine ⟨h1, ?_, ?_⟩
  · rw [h1]
    exact ht
  · have hc := executeClassify_retry_of c ns jp dr rn r hs ha
    simp [executeLoop, hc, h1]

/-- C9 fails on the code: when request construction fails and an accept
language is configured, get dereferences the nil request and panics before
reaching the error check; only with no accept language configured is the
construction error returned. -/
theorem get_nil_request_deref :
    getLoop clientNoRetryLang jpNone drNat
        (Except.error "missing protocol scheme") none [] = GetResult.panicNilDeref ∧
    getLoop clientNoRetry jpNone drNat
        (Except.error "missing protocol scheme") none []
      = GetResult.err (ClientError.requestBuild "missing protocol scheme") :=
  ⟨rfl, rfl⟩

/-- C10 fails on the code: a 200 response whose body decodes to a map with
no albums entry, or with a null albums entry, makes NewReleases dereference
a nil raw-message pointer and panic instead of returning an error. -/
theorem newReleases_missing_albums_panics :
    newReleases clientNoRetry jpNone objmapDec albumsDec (Except.ok ()) none
        [Sum.inr ⟨200, "", "emptyobj", none⟩] = NewReleasesResult.panicNilDeref ∧
    newReleases clientNoRetry jpNone objmapDec albumsDec (Except.ok ()) none
        [Sum.inr ⟨200, "", "albumsnull", none⟩] = NewReleasesResult.panicNilDeref :=
  ⟨rfl, rfl⟩

/-! Witnesses instantiating the hypothesized claim theorems at concrete
inputs. -/

/-- Witness for the amended C1 at a concrete 201 response. -/
theorem success_decode_populates_witness :
    executeLoop clientRetry [] jpNone drNat true none
        [Sum.inr ⟨201, "", "payload", none⟩] = ExecResult.ok (some 7) ∧
    getLoop clientRetry jpNone drNat (Except.ok ()) none
        [Sum.inr ⟨201, "", "payload", none⟩]
      = GetResult.err (decodeError jpNone ⟨201, "", "payload", none⟩) := by
  have h := success_decode_populates clientRetry [] jpNone drNat none
    ⟨201, "", "payload", none⟩ 7 (by decide) (by decide) (by decide) (by decide) rfl
  exact ⟨h.1, h.2.2 (by decide)⟩

/-- Witness for C2 at concrete statuses, clients and attempt lists. -/
theorem retry_classification_witness :
    (shouldRetry 202 = true ↔ (202 : Nat) = 202 ∨ (202 : Nat) = 429) ∧
    (mkResp 429).statusCode = 429 ∧
    (executeLoop clientNoRetry [] jpNone drNat true none
        [Sum.inr (mkResp 429), Sum.inr (mkResp 200)]
      = executeLoop clientNoRetry [] jpNone drNat true none [Sum.inr (mkResp 429)]) ∧
    (getLoop clientNoRetry jpNone drNat (Except.ok ()) none
        [Sum.inr (mkResp 429), Sum.inr (mkResp 200)]
      = getLoop clientNoRetry jpNone drNat (Except.ok ()) none [Sum.inr (mkResp 429)]) ∧
    (executeLoop clientRetry [] jpNone drNat true none [Sum.inr (mkResp 429)]
      = executeLoop clientRetry [] jpNone drNat true none []) ∧
    (getLoop clientRetry jpNone drNat (Except.ok ()) none [Sum.inr (mkResp 429)]
      = getLoop clientRetry jpNone drNat (Except.ok ()) none []) := by
  have h1 := retry_classification clientNoRetry [] jpNone drNat true none
    (Sum.inr (mkResp 429)) (mkResp 429) [Sum.inr (mkResp 200)]
  have h2 := retry_classification clientRetry [] jpNone drNat true none
    (Sum.inr (mkResp 429)) (mkResp 429) []
  have hgc : getClassify clientRetry jpNone drNat (mkResp 429)
      = StepOutcome.retry defaultRetryDuration := rfl
  exact ⟨h1.1 202, h2.2.1 (mkResp 429) defaultRetryDuration hgc, (h1.2.2.1 rfl).1,
    (h1.2.2.1 rfl).2, h2.2.2.2.1 rfl rfl rfl, h2.2.2.2.2 rfl rfl rfl⟩

/-- Witness for the amended C3 at concrete header values. -/
theorem retryDuration_spec_witness :
    retryDuration ⟨429, "3", "", none⟩ = 3 * second ∧
    (0 : Int) < retryDuration ⟨429, "3", "", none⟩ ∧
    retryDuration ⟨429, "", "", none⟩ = defaultRetryDuration ∧
    retryDuration ⟨429, "abc", "", none⟩ = defaultRetryDuration := by
  have h1 := retryDuration_spec ⟨429, "3", "", none⟩
  have h2 := retryDuration_spec ⟨429, "", "", none⟩
  have h3 := retryDuration_spec ⟨429, "abc", "", none⟩
  exact ⟨h1.2.2.1 3 rfl, h1.2.2.2.1 3 rfl (by decide), h2.1 rfl, h3.2.1 rfl⟩

/-- Witness for the amended C4 at concrete clients and responses. -/
theorem tooManyRequests_exact_conditions_witness :
    executeLoop clientRetry [] jpNone drNat true none []
        ≠ ExecResult.err (ClientError.tooManyRequests defaultRetryDuration) ∧
    executeLoop clientNoRetry [] jpNone drNat true none [Sum.inr (mkResp 202)]
        = ExecResult.err (ClientError.tooManyRequests defaultRetryDuration) ∧
    getLoop clientNoRetry jpNone drNat (Except.ok ()) none [Sum.inr (mkResp 429)]
        = GetResult.err (ClientError.tooManyRequests defaultRetryDuration) := by
  have h1 := tooManyRequests_exact_conditions clientRetry [] jpNone drNat true none
    [] (mkResp 202) [] defaultRetryDuration
  have h2 := tooManyRequests_exact_conditions clientNoRetry [] jpNone drNat true none
    [] (mkResp 202) [] defaultRetryDuration
  have h3 := tooManyRequests_exact_conditions clientNoRetry [] jpNone drNat true none
    [] (mkResp 429) [] defaultRetryDuration
  exact ⟨(h1.1 rfl).1, (h2.2 rfl).1.mpr ⟨rfl, rfl⟩, (h3.2 rfl).2.mpr ⟨rfl, rfl⟩⟩

/-- Witness for C5: a 429 with an unparseable Retry-After and auto-retry
off. -/
theorem rate_limit_disabled_fails_fast_witness :
    executeLoop clientNoRetry [] jpNone drNat true none
        [Sum.inr ⟨429, "abc", "", none⟩, Sum.inr (mkResp 200)]
      = ExecResult.err
          (ClientError.tooManyRequests (retryDuration ⟨429, "abc", "", none⟩)) ∧
    retryDuration ⟨429, "abc", "", none⟩ = defaultRetryDuration := by
  have h := rate_limit_disabled_fails_fast clientNoRetry [] jpNone drNat true none
    ⟨429, "abc", "", none⟩ [Sum.inr (mkResp 200)] rfl rfl
  exact ⟨h.1, h.2.2.2.1 (Or.inr rfl)⟩

/-- Witness for C6 on the four decodeError branches at status 404. -/
theorem decodeError_cases_witness :
    decodeError jpFix ⟨404, "", "", none⟩
      = ClientError.httpStatus "spotify: HTTP 404: Not Found (body empty)" ∧
    decodeError jpFix ⟨404, "", "errenv", none⟩
      = ClientError.domain ⟨"not found", 404⟩ ∧
    decodeError jpFix ⟨404, "", "emptymsg", none⟩
      = ClientError.domain
          ⟨"spotify: unexpected HTTP 404: Not Found (empty error)", 500⟩ ∧
    decodeError jpFix ⟨404, "", "notjson", none⟩
      = ClientError.httpStatus "spotify: couldn\x27t decode error: (7) [notjson]" := by
  have h1 := decodeError_cases jpFix ⟨404, "", "", none⟩ rfl
  have h2 := decodeError_cases jpFix ⟨404, "", "errenv", none⟩ rfl
  have h3 := decodeError_cases jpFix ⟨404, "", "emptymsg", none⟩ rfl
  have h4 := decodeError_cases jpFix ⟨404, "", "notjson", none⟩ rfl
  exact ⟨h1.1 rfl, h2.2.1 ⟨"not found", 404⟩ (by decide) rfl (by decide),
    h3.2.2.1 ⟨"", 500⟩ (by decide) rfl rfl, h4.2.2.2 (by decide) rfl⟩

/-- Witness for C7: a 204 with a non-empty body succeeds untouched. -/
theorem no_content_no_decode_witness :
    executeLoop clientNoRetry [] jpNone drNat true none
        [Sum.inr ⟨204, "", "garbage", none⟩] = ExecResult.ok none ∧
    getLoop clientNoRetry jpNone drNat (Except.ok ()) none
        [Sum.inr ⟨204, "", "garbage", none⟩] = GetResult.ok (none : Option Nat) :=
  no_content_no_decode clientNoRetry [] jpNone drNat true none
    ⟨204, "", "garbage", none⟩ [] rfl

/-- Witness for C8: cancellation 5 nanoseconds into a 2 second retry
sleep. -/
theorem cancellation_during_retry_sleep_witness :
    sleep (some 5) (retryDuration ⟨429, "2", "", none⟩)
      = (5, some ClientError.contextCanceled) ∧
    (sleep (some 5) (retryDuration ⟨429, "2", "", none⟩)).1
      < (retryDuration ⟨429, "2", "", none⟩).toNat ∧
    executeLoop clientRetry [] jpNone drNat true (some 5)
        [Sum.inr ⟨429, "2", "", none⟩, Sum.inr (mkResp 200)]
      = ExecResult.err ClientError.contextCanceled :=
  cancellation_during_retry_sleep clientRetry [] jpNone drNat true
    ⟨429, "2", "", none⟩ [Sum.inr (mkResp 200)] 5 rfl rfl (by decide)

end SpotifyGo
